import Mathlib

/-
Verification of the cnd / okteto CLI against its specification.

The development shallowly embeds the parts of the source that the claims
are about:

* `OktetoModel`  — `pkg/model/dev.go` (the `Dev` manifest model, its
  defaulting, validation helpers, and `ToTranslationRule`).
* `CndModel`     — `model/dev.go` (the early cnd translator that swaps a
  deployment container and appends the syncthing sidecar).
* `K8sTranslate` — the statefulset translator (`translateVolumeClaimTemplates`).
* `UpCmd`        — the `up` command activation loop (state-file writes,
  `WaitUntilExitOrInterrupt`, the port-forward registration sequence).
* `SpecRestore`  — the translate/restore pair of the deployments package,
  modelled from the spec because that package is not part of the sources.

Kubernetes API objects are modelled structurally with just the fields the
code reads or writes; Go maps are modelled as association lists and Go's
nil/empty distinction as `Option`.
-/

namespace OktetoModel

/-- EnvVar of pkg/model/dev.go: an environment name/value pair. -/
structure EnvVar where
  name : String
  value : String
deriving DecidableEq

/-- Forward of pkg/model/dev.go: a local/remote port forwarding pair. -/
structure Forward where
  local_ : Int
  remote : Int
deriving DecidableEq

/-- RemoteForward of pkg/model/dev.go: a remote/local reverse forward. -/
structure RemoteForward where
  remote : Int
  local_ : Int
deriving DecidableEq

/-- Volume of pkg/model/dev.go: an extra volume mount declaration. -/
structure Volume where
  subPath : String
  mountPath : String
deriving DecidableEq

/-- Capabilities of pkg/model/dev.go. -/
structure Capabilities where
  add : List String
  drop : List String
deriving DecidableEq

/-- SecurityContext of pkg/model/dev.go. -/
structure SecurityContext where
  runAsUser : Option Int
  runAsGroup : Option Int
  fsGroup : Option Int
  capabilities : Option Capabilities
deriving DecidableEq

/-- ResourceRequirements of pkg/model/dev.go; a ResourceList is an
association list from resource name to quantity string. -/
structure ResourceRequirements where
  limits : List (String × String)
  requests : List (String × String)
deriving DecidableEq

/-- The non-recursive fields of the Dev struct of pkg/model/dev.go, in
source order.  The Go field Namespace is called namespace_ because
namespace is a Lean keyword. -/
structure DevFields where
  name : String
  labels : List (String × String)
  annotations : List (String × String)
  namespace_ : String
  container : String
  image : String
  imagePullPolicy : String
  environment : List EnvVar
  command : List String
  workDir : String
  mountPath : String
  subPath : String
  volumes : List Volume
  securityContext : Option SecurityContext
  forward : List Forward
  remoteForward : List RemoteForward
  remotePort : Int
  resources : ResourceRequirements
  devPath : String
  devDir : String
deriving DecidableEq

/-- Dev of pkg/model/dev.go.  The struct is recursive through its
Services field, so it is an inductive wrapping the flat fields. -/
inductive Dev where
  | mk (fields : DevFields) (services : List Dev)

/-- The flat fields of a Dev. -/
def Dev.fields : Dev → DevFields
  | .mk f _ => f

/-- The nested service DevSpecs of a Dev. -/
def Dev.services : Dev → List Dev
  | .mk _ s => s

/-- The defaulting applied to one nested service inside the
setDefaults loop of pkg/model/dev.go (lines 221-246): default
mountpath/workdir and pull policy, reject name together with labels,
then clear namespace, forwards, volumes and sub-services. -/
def setDefaultsServiceFields (f : DevFields) : DevFields :=
  let f := if f.mountPath = "" ∧ f.workDir = "" then
    { f with mountPath := "/okteto", workDir := "/okteto" } else f
  let f := if f.imagePullPolicy = "" then { f with imagePullPolicy := "Always" } else f
  let f := if f.workDir ≠ "" ∧ f.mountPath = "" then { f with mountPath := f.workDir } else f
  f

/-- The error check and the final clearing of one service (lines
238-245), after the defaulting above. -/
def setDefaultsService (s : Dev) : Except String Dev :=
  if (setDefaultsServiceFields s.fields).name ≠ "" ∧
      (setDefaultsServiceFields s.fields).labels ≠ [] then
    Except.error ("'name' and 'labels' cannot be defined at the same time for service '" ++
      (setDefaultsServiceFields s.fields).name ++ "'")
  else
    Except.ok (Dev.mk
      { setDefaultsServiceFields s.fields with
        namespace_ := "", forward := [], remoteForward := [], volumes := [] } [])

/-- The service loop of setDefaults: process the services in order and
stop at the first error, as the Go range loop does. -/
def setDefaultsServices : List Dev → Except String (List Dev)
  | [] => Except.ok []
  | s :: rest => do
    let s' ← setDefaultsService s
    let rest' ← setDefaultsServices rest
    return s' :: rest'

/-- The field mutations setDefaults applies to the top-level Dev
(lines 202-219), in source order. -/
def setDefaultsFields (f : DevFields) : DevFields :=
  let f := if f.command = [] then { f with command := ["sh"] } else f
  let f := if f.mountPath = "" ∧ f.workDir = "" then
    { f with mountPath := "/okteto", workDir := "/okteto" } else f
  let f := if f.imagePullPolicy = "" then { f with imagePullPolicy := "Always" } else f
  let f := if f.workDir ≠ "" ∧ f.mountPath = "" then { f with mountPath := f.workDir } else f
  f

/-- setDefaults of pkg/model/dev.go (lines 201-248).  The nil-map
initialisation of Labels and Annotations is the identity in this model
because Go nil maps and empty maps are both the empty association
list. -/
def Dev.setDefaults (d : Dev) : Except String Dev := do
  let svcs ← setDefaultsServices d.services
  return Dev.mk (setDefaultsFields d.fields) svcs

/-- UpdateNamespace of pkg/model/dev.go (lines 438-447).  The Go method
mutates the receiver and returns an error; the model returns the error
(if any) together with the resulting Dev. -/
def Dev.updateNamespace (d : Dev) (namespace_ : String) : Option String × Dev :=
  if namespace_ = "" then (none, d)
  else if d.fields.namespace_ ≠ "" ∧ d.fields.namespace_ ≠ namespace_ then
    (some ("the namespace in the okteto manifest '" ++ d.fields.namespace_ ++
      "' does not match the namespace '" ++ namespace_ ++ "'"), d)
  else (none, Dev.mk { d.fields with namespace_ := namespace_ } d.services)

/-- RemoteModeEnabled of pkg/model/dev.go (lines 492-502); the nil
receiver check has no counterpart for Lean values. -/
def Dev.RemoteModeEnabled (d : Dev) : Bool :=
  if d.fields.remotePort > 0 then true
  else decide (d.fields.remoteForward.length > 0)

/-- Go path.Join on the segments the model needs: drop empty segments
and join the rest with a slash. -/
def pathJoin (parts : List String) : String :=
  String.intercalate "/" (parts.filter (fun p => p ≠ ""))

/-- fullSubPath of pkg/model/dev.go (lines 361-366). -/
def Dev.fullSubPath (d : Dev) (i : Nat) (subPath : String) : String :=
  if subPath = "" then pathJoin [d.fields.name, "data-" ++ toString i]
  else pathJoin [d.fields.name, "data-0", subPath]

/-- syncthingSubPath of pkg/model/dev.go (lines 369-371). -/
def Dev.syncthingSubPath (d : Dev) : String :=
  pathJoin [d.fields.name, "syncthing"]

/-- oktetoSyncthingMountPath constant of pkg/model/dev.go. -/
def oktetoSyncthingMountPath : String := "/var/syncthing"

/-- oktetoMarkerPathVariable constant of pkg/model/dev.go. -/
def oktetoMarkerPathVariable : String := "OKTETO_MARKER_PATH"

/-- OktetoVolumeName constant of pkg/model/dev.go. -/
def OktetoVolumeName : String := "okteto"

/-- VolumeMount of the translation rule. -/
structure VolumeMount where
  name : String
  mountPath : String
  subPath : String
deriving DecidableEq

/-- TranslationRule of pkg/model/dev.go: the per-container mutation
derived from a Dev. -/
structure TranslationRule where
  container : String
  image : String
  imagePullPolicy : String
  environment : List EnvVar
  workDir : String
  volumes : List VolumeMount
  securityContext : Option SecurityContext
  resources : ResourceRequirements
  marker : String
  healthchecks : Bool
  command : List String
  args : List String
deriving DecidableEq

/-- ToTranslationRule of pkg/model/dev.go (lines 374-435).  The Go code
branches on the pointer comparison main == dev; the boolean isMain
stands for that comparison, and callers pass the same Dev for dev and
main_ when it is true. -/
def Dev.toTranslationRule (dev main_ : Dev) (isMain : Bool) : TranslationRule :=
  let rule : TranslationRule :=
    { container := dev.fields.container
      image := dev.fields.image
      imagePullPolicy := dev.fields.imagePullPolicy
      environment := dev.fields.environment
      workDir := dev.fields.workDir
      volumes := [{ name := OktetoVolumeName
                    mountPath := dev.fields.mountPath
                    subPath := main_.fullSubPath 0 dev.fields.subPath }]
      securityContext := dev.fields.securityContext
      resources := dev.fields.resources
      marker := ""
      healthchecks := false
      command := []
      args := [] }
  let rule :=
    if isMain then
      { rule with
        marker := dev.fields.devPath
        environment := rule.environment ++
          [{ name := oktetoMarkerPathVariable
             value := pathJoin [dev.fields.mountPath, dev.fields.devPath] }]
        volumes := rule.volumes ++
          [{ name := OktetoVolumeName
             mountPath := oktetoSyncthingMountPath
             subPath := dev.syncthingSubPath }]
        healthchecks := false
        command := ["/var/okteto/bin/start.sh"]
        args := if main_.RemoteModeEnabled then ["-r"] else [] }
    else
      { rule with
        healthchecks := true
        command := if dev.fields.command.length > 0 then dev.fields.command else rule.command
        args := if dev.fields.command.length > 0 then [] else rule.args }
  { rule with
    volumes := rule.volumes ++
      dev.fields.volumes.enum.map (fun iv =>
        { name := OktetoVolumeName
          mountPath := iv.2.mountPath
          subPath := main_.fullSubPath (iv.1 + 1) iv.2.subPath }) }

/-- GetVolumeTemplateName of pkg/model/dev.go (lines 336-338):
pvc-i from the oktetoVolumeNameTemplate constant. -/
def Dev.GetVolumeTemplateName (_ : Dev) (i : Nat) : String :=
  "pvc-" ++ toString i

end OktetoModel

namespace CndModel

/-- VolumeMount of the k8s core API, with the fields model/dev.go uses. -/
structure VolumeMount where
  name : String
  mountPath : String
deriving DecidableEq

/-- ContainerPort of the k8s core API. -/
structure ContainerPort where
  containerPort : Nat
deriving DecidableEq

/-- Container of the k8s core API, with the fields model/dev.go touches.
A Go nil VolumeMounts slice is distinguished from an empty one. -/
structure Container where
  name : String
  image : String
  imagePullPolicy : String
  command : List String
  args : List String
  workingDir : String
  volumeMounts : Option (List VolumeMount)
  ports : List ContainerPort
deriving DecidableEq

/-- Volume of the k8s core API (model/dev.go only sets its name). -/
structure Volume where
  name : String
deriving DecidableEq

/-- LabelSelector of the k8s meta API. -/
structure LabelSelector where
  matchLabels : List (String × String)
deriving DecidableEq

/-- The parts of a k8s apps/v1 Deployment that model/dev.go reads or
writes: object name and labels, pod template name and labels, the pod
spec containers and volumes. -/
structure Deployment where
  name : String
  labels : Option (List (String × String))
  selector : Option LabelSelector
  templateName : String
  templateLabels : Option (List (String × String))
  containers : List Container
  volumes : Option (List Volume)
deriving DecidableEq

/-- The deployment struct of model/dev.go (the swap.deployment manifest
section). -/
structure SwapDeployment where
  file : String
  container : String
  image : String
  command : List String
  args : List String
deriving DecidableEq

/-- The swap struct of model/dev.go; the unused service selector is
omitted. -/
structure Swap where
  deployment : SwapDeployment
deriving DecidableEq

/-- The mount struct of model/dev.go. -/
structure Mount where
  source : String
  target : String
deriving DecidableEq

/-- Dev of model/dev.go (the early cnd manifest model). -/
structure Dev where
  name : String
  swap : Swap
  mount : Mount
deriving DecidableEq

/-- Setting a key of a Go string map modelled as an association list:
overwrite an existing entry, else append. -/
def mapSet (m : List (String × String)) (k v : String) : List (String × String) :=
  if m.any (fun p => p.1 = k) then m.map (fun p => if p.1 = k then (k, v) else p)
  else m ++ [(k, v)]

/-- updateCndContainer of model/dev.go (lines 163-179). -/
def updateCndContainer (dev : Dev) (c : Container) : Container :=
  { c with
    image := dev.swap.deployment.image
    imagePullPolicy := "IfNotPresent"
    command := dev.swap.deployment.command
    args := dev.swap.deployment.args
    workingDir := dev.mount.target
    volumeMounts := some ((c.volumeMounts.getD []) ++
      [{ name := "cnd-sync", mountPath := dev.mount.target }]) }

/-- The container loop of Deployment() (lines 150-155): mutate the first
container whose name matches the swap selector (an empty selector
matches the first container) and stop. -/
def updateFirstCndContainer (dev : Dev) : List Container → List Container
  | [] => []
  | c :: rest =>
    if c.name = dev.swap.deployment.container ∨ dev.swap.deployment.container = "" then
      updateCndContainer dev c :: rest
    else
      c :: updateFirstCndContainer dev rest

/-- The syncthing sidecar container appended by createSyncthingContainer
of model/dev.go (lines 181-203). -/
def syncthingContainer : Container :=
  { name := "cnd-syncthing"
    image := "okteto/syncthing:latest"
    imagePullPolicy := ""
    command := []
    args := []
    workingDir := ""
    volumeMounts := some [{ name := "cnd-sync", mountPath := "/var/cnd-sync" }]
    ports := [{ containerPort := 8384 }, { containerPort := 22000 }] }

/-- createSyncthingContainer of model/dev.go: append the sidecar to the
pod template containers. -/
def createSyncthingContainer (d : Deployment) : Deployment :=
  { d with containers := d.containers ++ [syncthingContainer] }

/-- createSyncthingVolume of model/dev.go (lines 205-214). -/
def createSyncthingVolume (d : Deployment) : Deployment :=
  { d with volumes := some ((d.volumes.getD []) ++ [{ name := "cnd-sync" }]) }

/-- Deployment() of model/dev.go (lines 116-161) after the YAML decode
of the swap file: rename the deployment, stamp the cnd labels and
selector, mutate the selected container, then append the syncthing
sidecar and its volume. -/
def Dev.deploymentTranslate (dev : Dev) (d : Deployment) : Deployment :=
  let d := { d with name := dev.name }
  let d := { d with labels := some (match d.labels with
    | none => [("cnd", dev.name)]
    | some l => mapSet l "cnd" dev.name) }
  let d := { d with selector := some (match d.selector with
    | none => { matchLabels := [("cnd", dev.name)] }
    | some s => { matchLabels := mapSet s.matchLabels "cnd" dev.name }) }
  let d := { d with templateName := dev.name }
  let d := { d with templateLabels := some (match d.templateLabels with
    | none => [("cnd", dev.name)]
    | some l => mapSet l "cnd" dev.name) }
  let d := { d with containers := updateFirstCndContainer dev d.containers }
  let d := createSyncthingContainer d
  createSyncthingVolume d

end CndModel

namespace K8sTranslate

/-- PersistentVolumeClaim as translateVolumeClaimTemplates builds it:
a name, the access modes, and the storage request quantity. -/
structure PersistentVolumeClaim where
  name : String
  accessModes : List String
  storageRequest : String
deriving DecidableEq

/-- translateVolumeClaimTemplates of the statefulset translator
(lines 172-194): one claim per index 0..len(volumes) inclusive, each
ReadWriteOnce with a 10Gi storage request. -/
def translateVolumeClaimTemplates (dev : OktetoModel.Dev) : List PersistentVolumeClaim :=
  (List.range (dev.fields.volumes.length + 1)).map (fun i =>
    { name := dev.GetVolumeTemplateName i
      accessModes := ["ReadWriteOnce"]
      storageRequest := "10Gi" })

end K8sTranslate

namespace UpCmd

/-- The activation states written to the okteto.state file by the up
command; the enumeration follows the updateStateFile calls of the up
command source and the spec's ActivationState. -/
inductive UpState where
  | activating
  | starting
  | attaching
  | pulling
  | startingSync
  | synchronizing
  | ready
  | failed
deriving DecidableEq

/-- The position of a state in the activation order; failed sits after
every ordinary state. -/
def stateOrder : UpState → Nat
  | .activating => 0
  | .starting => 1
  | .attaching => 2
  | .pulling => 3
  | .startingSync => 4
  | .synchronizing => 5
  | .ready => 6
  | .failed => 7

/-- Insert an element at position n of a list (at the end when n
exceeds the length). -/
def insertAt {α : Type} (n : Nat) (a : α) : List α → List α
  | [] => [a]
  | x :: xs =>
    match n with
    | 0 => a :: x :: xs
    | n + 1 => x :: insertAt n a xs

/-- All but the last of the reporter goroutine's state-file writes for
pullMsgs Pulling progress messages.  The goroutine writes attaching at
its start and one pulling after each channel rendezvous; each of these
writes except the last happens before the next send on the reporter
channel completes, hence before MonitorDevPod returns and before the
startingSync write. -/
def reporterEarlyWrites (pullMsgs : Nat) : List UpState :=
  match pullMsgs with
  | 0 => []
  | n + 1 => UpState.attaching :: List.replicate n UpState.pulling

/-- The last of the reporter goroutine's state-file writes: attaching
when no Pulling message arrives, otherwise the final pulling.  Nothing
joins the goroutine (close(reporter) does not wait for it), so this
write has no happens-before edge to the rest of the cycle and the
scheduler may land it arbitrarily late. -/
def reporterLastWrite (pullMsgs : Nat) : UpState :=
  match pullMsgs with
  | 0 => UpState.attaching
  | _ + 1 => UpState.pulling

/-- The main goroutine's state-file writes after devMode returns: an
error cuts them short after any prefix, and RunUp then writes failed.
These writes are ordered among themselves (ready is written by the
runCommand goroutine, but after the synchronizing write and before the
Running send that precedes any failed write). -/
def mainTailWrites (steps : Nat) (fails : Bool) : List UpState :=
  ([UpState.startingSync, UpState.synchronizing, UpState.ready].take steps) ++
    (if fails then [UpState.failed] else [])

/-- The state-file write sequences one activation cycle can produce.
When devMode fails before spawning the reporter goroutine (spawned
false) the trace is a prefix of activating, starting plus failed.
Otherwise the main goroutine writes activating and starting, the
reporter's writes follow — all but its last bounded before the
startingSync write — and its unsynchronised last write lands at
position lastDelay of the remaining main writes (position 0 is its
channel-rendezvous point; larger delays model the race past
startingSync, synchronizing, ready and failed). -/
def observedWrites (pullMsgs lastDelay steps : Nat) (fails spawned : Bool) : List UpState :=
  if spawned then
    [UpState.activating, UpState.starting] ++ reporterEarlyWrites pullMsgs ++
      insertAt lastDelay (reporterLastWrite pullMsgs) (mainTailWrites steps fails)
  else
    ([UpState.activating, UpState.starting].take steps) ++
      (if fails then [UpState.failed] else [])

/-- The errors of pkg/errors the wait loop of the up command returns. -/
inductive UpError where
  | commandFailed
  | lostConnection
deriving DecidableEq

/-- One message arriving on the coordination channels of the up command:
a result on Running, a message on ErrChan, or a Disconnect signal. -/
inductive UpEvent where
  | running (err : Option String)
  | errMsg (msg : String)
  | disconnect
deriving DecidableEq

/-- Whether an event is an ErrChan message. -/
def UpEvent.isErrMsg : UpEvent → Bool
  | .errMsg _ => true
  | _ => false

/-- WaitUntilExitOrInterrupt of the up command (lines 300-320), over the
sequence of channel events in arrival order: a nil Running result
returns nil, a non-nil one returns ErrCommandFailed, Disconnect returns
ErrLostConnection, and an ErrChan message is printed in yellow and the
loop keeps waiting.  The outer Option is none while the loop is still
waiting; the inner Option is the returned error (none for a nil
return). -/
def WaitUntilExitOrInterrupt : List UpEvent → Option (Option UpError)
  | [] => none
  | .running none :: _ => some none
  | .running (some _) :: _ => some (some .commandFailed)
  | .errMsg _ :: rest => WaitUntilExitOrInterrupt rest
  | .disconnect :: _ => some (some .lostConnection)

/-- syncthing.ClusterPort: the remote syncthing TCP port (22000, as in
the statefulset translator's syncTCPPort). -/
def ClusterPort : Int := 22000

/-- syncthing.GUIPort: the remote syncthing GUI port (8384, as in the
statefulset translator's syncGUIPort). -/
def GUIPort : Int := 8384

/-- The sequence of (local, remote) pairs the up command registers with
the port-forward manager in devMode (lines 423-433): one Add per
user-declared forward in order, then Add(Sy.RemotePort, ClusterPort),
then Add(Sy.RemoteGUIPort, GUIPort). -/
def devModeForwards (dev : OktetoModel.Dev) (syRemotePort syRemoteGUIPort : Int) :
    List (Int × Int) :=
  (dev.fields.forward.map (fun f => (f.local_, f.remote))) ++
    [(syRemotePort, ClusterPort), (syRemoteGUIPort, GUIPort)]

end UpCmd

namespace SpecRestore

/-- The pod spec of a deployment as the translate/restore pair treats
it: the containers and volumes of the pod template. -/
structure PodSpec where
  containers : List CndModel.Container
  volumes : Option (List CndModel.Volume)
deriving DecidableEq

/-- A deployment as the translate/restore pair treats it.  Modelled
from the spec: the deployments package holding TranslateDevMode and the
restore of the down command is not under the sources, so the captured
original PodSpec (the dev.okteto.com JSON annotation of the original
spec) is stored structurally in originalSpec, next to the ordinary
annotations. -/
structure Deployment where
  name : String
  annotations : List (String × String)
  originalSpec : Option PodSpec
  spec : PodSpec
deriving DecidableEq

/-- Modelled from the spec: the dev-container patch of translation step
3 — replace image, command, args and workdir and append the volume
mount onto the shared claim. -/
def patchDevContainer (s : OktetoModel.Dev) (c : CndModel.Container) : CndModel.Container :=
  { c with
    image := s.fields.image
    command := ["/var/okteto/bin/start.sh"]
    args := if s.RemoteModeEnabled then ["-r"] else []
    workingDir := s.fields.workDir
    volumeMounts := some ((c.volumeMounts.getD []) ++
      [{ name := "okteto", mountPath := s.fields.mountPath }]) }

/-- Modelled from the spec: select the target container — the explicit
name if provided, otherwise the first container — and apply the
dev-container patch to it. -/
def patchFirstContainer (s : OktetoModel.Dev) :
    List CndModel.Container → List CndModel.Container
  | [] => []
  | c :: rest =>
    if c.name = s.fields.container ∨ s.fields.container = "" then
      patchDevContainer s c :: rest
    else
      c :: patchFirstContainer s rest

/-- Modelled from the spec: the synchroniser sidecar of translation
step 4. -/
def syncthingSidecar : CndModel.Container :=
  { name := "syncthing"
    image := "okteto/syncthing:1.2.2"
    imagePullPolicy := ""
    command := []
    args := []
    workingDir := ""
    volumeMounts := some
      [{ name := "okteto-secret", mountPath := "/var/syncthing/secret" },
       { name := "okteto", mountPath := "/var/okteto" }]
    ports := [{ containerPort := 22000 }, { containerPort := 8384 }] }

/-- Modelled from the spec: the dev-mode overlay applied to a pod spec —
patch the target container, append the synchroniser sidecar and the
secret volume. -/
def devModeOverlay (s : OktetoModel.Dev) (p : PodSpec) : PodSpec :=
  { containers := patchFirstContainer s p.containers ++ [syncthingSidecar]
    volumes := some ((p.volumes.getD []) ++ [{ name := "okteto-secret" }]) }

/-- Modelled from the spec: translate — before the first translation,
capture the original PodSpec as the original-spec annotation (a later
translation keeps the already-captured value), then install the
dev-mode overlay on the pod spec. -/
def translate (s : OktetoModel.Dev) (d : Deployment) : Deployment :=
  { d with
    originalSpec := some (d.originalSpec.getD d.spec)
    spec := devModeOverlay s d.spec }

/-- Modelled from the spec: restore, the down path — put back the
captured original PodSpec exactly and remove the captured annotation;
a deployment without the annotation cannot be restored. -/
def restore (d : Deployment) : Option Deployment :=
  match d.originalSpec with
  | some p => some { d with spec := p, originalSpec := none }
  | none => none

end SpecRestore

namespace OktetoModel

/-- A manifest with only a name set, used as the base of the concrete
examples below. -/
def baseFields : DevFields :=
  { name := "api"
    labels := []
    annotations := []
    namespace_ := ""
    container := ""
    image := ""
    imagePullPolicy := ""
    environment := []
    command := []
    workDir := ""
    mountPath := ""
    subPath := ""
    volumes := []
    securityContext := none
    forward := []
    remoteForward := []
    remotePort := 0
    resources := { limits := [], requests := [] }
    devPath := "okteto.yml"
    devDir := "" }

/-- A minimal Dev without services. -/
def devApi : Dev := Dev.mk baseFields []

/-- The result of defaulting devApi. -/
def devApiDefaulted : Dev :=
  Dev.mk { baseFields with
    command := ["sh"], mountPath := "/okteto", workDir := "/okteto",
    imagePullPolicy := "Always" } []

/-- A manifest that declares a mount path but no workdir. -/
def devMountOnly : Dev := Dev.mk { baseFields with mountPath := "/app" } []

/-- The result of defaulting devMountOnly: its workDir stays empty. -/
def devMountOnlyDefaulted : Dev :=
  Dev.mk { baseFields with
    mountPath := "/app", command := ["sh"], imagePullPolicy := "Always" } []

/-- A manifest with one nested service that declares a namespace, a
forward, a volume and a sub-service of its own. -/
def devWithService : Dev :=
  Dev.mk baseFields
    [Dev.mk { baseFields with
        name := ""
        namespace_ := "staging"
        forward := [{ local_ := 8080, remote := 3000 }]
        remoteForward := [{ remote := 2222, local_ := 22 }]
        volumes := [{ subPath := "", mountPath := "/data" }]
      } [Dev.mk baseFields []]]

/-- The defaulted nested service of devWithService: everything it
declared beyond the defaults has been cleared. -/
def serviceDefaulted : Dev :=
  Dev.mk { baseFields with
    name := "", mountPath := "/okteto", workDir := "/okteto",
    imagePullPolicy := "Always" } []

/-- The result of defaulting devWithService. -/
def devWithServiceDefaulted : Dev :=
  Dev.mk { baseFields with
    command := ["sh"], mountPath := "/okteto", workDir := "/okteto",
    imagePullPolicy := "Always" } [serviceDefaulted]

/-- A manifest declaring one extra volume. -/
def devOneVolume : Dev :=
  Dev.mk { baseFields with volumes := [{ subPath := "", mountPath := "/data" }] } []

/-- A manifest declaring one port forward. -/
def devOneForward : Dev :=
  Dev.mk { baseFields with forward := [{ local_ := 8080, remote := 3000 }] } []

end OktetoModel

namespace CndModel

/-- A concrete cnd manifest targeting the first container. -/
def swapDev0 : Dev :=
  { name := "api"
    swap := { deployment :=
      { file := "deployment.yaml"
        container := ""
        image := "okteto/desk:latest"
        command := ["sh"]
        args := [] } }
    mount := { source := ".", target := "/src" } }

/-- A concrete original container. -/
def apiContainer : Container :=
  { name := "api"
    image := "node:16"
    imagePullPolicy := "Always"
    command := []
    args := []
    workingDir := ""
    volumeMounts := none
    ports := [] }

/-- A concrete original deployment with one container. -/
def deployment0 : Deployment :=
  { name := "api"
    labels := none
    selector := none
    templateName := ""
    templateLabels := none
    containers := [apiContainer]
    volumes := none }

end CndModel

namespace SpecRestore

/-- A concrete original deployment for the round-trip example: not yet
translated, so it carries no captured original-spec annotation. -/
def origDeployment : Deployment :=
  { name := "api"
    annotations := [("app", "api")]
    originalSpec := none
    spec := { containers := [CndModel.apiContainer], volumes := none } }

end SpecRestore

namespace OktetoModel

/-- Claim C10: UpdateNamespace(ns) is a no-op returning nil when ns is
empty; when ns is non-empty it errors exactly when the Dev already has a
different non-empty namespace, leaving the namespace unchanged on error,
and otherwise sets the namespace to ns. -/
theorem updateNamespace_spec (d : Dev) (ns : String) :
    (ns = "" → d.updateNamespace ns = (none, d)) ∧
    (ns ≠ "" →
      (((d.updateNamespace ns).1 ≠ none) ↔
        (d.fields.namespace_ ≠ "" ∧ d.fields.namespace_ ≠ ns)) ∧
      ((d.updateNamespace ns).1 ≠ none → (d.updateNamespace ns).2 = d) ∧
      ((d.updateNamespace ns).1 = none →
        (d.updateNamespace ns).2.fields = { d.fields with namespace_ := ns } ∧
        (d.updateNamespace ns).2.services = d.services)) := by
  cases d with
  | mk f svcs =>
    by_cases h1 : ns = ""
    · simp [Dev.updateNamespace, h1]
    · by_cases h2 : f.namespace_ ≠ "" ∧ f.namespace_ ≠ ns
      · simp [Dev.updateNamespace, Dev.fields, Dev.services, h1, h2]
      · simp [Dev.updateNamespace, Dev.fields, Dev.services, h1, h2]

/-- Witness for updateNamespace_spec at a concrete Dev and namespace. -/
theorem updateNamespace_spec_witness :
    (devApi.updateNamespace "staging").2.fields = { devApi.fields with namespace_ := "staging" } ∧
    (devApi.updateNamespace "staging").2.services = devApi.services :=
  ((updateNamespace_spec devApi "staging").2 (by decide)).2.2 (by decide)

/-- Claim C6: the translation rule for the main dev container disables
healthchecks, forces the start.sh command, and passes the -r argument
exactly when remote mode is enabled (a positive remote port or at least
one reverse forward); the rule for a nested service container keeps
healthchecks enabled. -/
theorem toTranslationRule_spec (dev main_ : Dev) :
    ((dev.toTranslationRule dev true).healthchecks = false ∧
     (dev.toTranslationRule dev true).command = ["/var/okteto/bin/start.sh"] ∧
     ((dev.toTranslationRule dev true).args = ["-r"] ↔
       (dev.fields.remotePort > 0 ∨ dev.fields.remoteForward ≠ []))) ∧
    (dev.toTranslationRule main_ false).healthchecks = true := by
  refine ⟨⟨?_, ?_, ?_⟩, ?_⟩
  · simp [Dev.toTranslationRule]
  · simp [Dev.toTranslationRule]
  · by_cases h : dev.RemoteModeEnabled
    · have hcond : dev.fields.remotePort > 0 ∨ dev.fields.remoteForward ≠ [] := by
        unfold Dev.RemoteModeEnabled at h
        by_cases hp : dev.fields.remotePort > 0
        · exact Or.inl hp
        · right
          simp [hp] at h
          exact List.ne_nil_of_length_pos h
      simp [Dev.toTranslationRule, h, hcond]
    · have hcond : ¬(dev.fields.remotePort > 0 ∨ dev.fields.remoteForward ≠ []) := by
        unfold Dev.RemoteModeEnabled at h
        by_cases hp : dev.fields.remotePort > 0
        · simp [hp] at h
        · simp [hp] at h ⊢
          exact h
      simp [Dev.toTranslationRule, h, hcond]
  · simp [Dev.toTranslationRule]

end OktetoModel

namespace SpecRestore

/-- Claim C1: restoring a translated deployment returns exactly the
original deployment; the captured original-spec annotation is removed by
restore, so an original deployment (which carries no captured
annotation) round-trips bit for bit. -/
theorem translate_restore_roundTrip (s : OktetoModel.Dev) (d : Deployment)
    (h : d.originalSpec = none) :
    restore (translate s d) = some d := by
  cases d with
  | mk name annotations originalSpec spec =>
    simp only at h
    subst h
    simp [translate, restore]

/-- Witness for translate_restore_roundTrip on a concrete deployment. -/
theorem translate_restore_roundTrip_witness :
    restore (translate OktetoModel.devApi origDeployment) = some origDeployment :=
  translate_restore_roundTrip OktetoModel.devApi origDeployment rfl

end SpecRestore

namespace K8sTranslate

/-- Claim C8: for a DevSpec with n declared extra volumes the generated
volume claim templates are exactly n+1 claims named pvc-0 … pvc-n, each
ReadWriteOnce with a 10Gi storage request. -/
theorem translateVolumeClaimTemplates_spec (dev : OktetoModel.Dev) :
    (translateVolumeClaimTemplates dev).length = dev.fields.volumes.length + 1 ∧
    ∀ i (h : i < (translateVolumeClaimTemplates dev).length),
      (translateVolumeClaimTemplates dev).get ⟨i, h⟩ =
        { name := "pvc-" ++ toString i
          accessModes := ["ReadWriteOnce"]
          storageRequest := "10Gi" } := by
  constructor
  · simp [translateVolumeClaimTemplates]
  · intro i h
    simp [translateVolumeClaimTemplates, OktetoModel.Dev.GetVolumeTemplateName,
      List.get_eq_getElem]

/-- Witness for translateVolumeClaimTemplates_spec: a Dev with one extra
volume yields pvc-1 as its second claim. -/
theorem translateVolumeClaimTemplates_spec_witness :
    (translateVolumeClaimTemplates OktetoModel.devOneVolume).get ⟨1, by decide⟩ =
      { name := "pvc-1", accessModes := ["ReadWriteOnce"], storageRequest := "10Gi" } :=
  (translateVolumeClaimTemplates_spec OktetoModel.devOneVolume).2 1 (by decide)

end K8sTranslate

namespace OktetoModel

theorem setDefaultsService_cleared (x s : Dev) (h : setDefaultsService x = Except.ok s) :
    s.fields.namespace_ = "" ∧ s.fields.forward = [] ∧ s.fields.remoteForward = [] ∧
    s.fields.volumes = [] ∧ s.services = [] := by
  unfold setDefaultsService at h
  split at h
  · exact absurd h (by simp)
  · injection h with h
    subst h
    simp [Dev.fields, Dev.services]

theorem setDefaultsServices_mem (l l' : List Dev) (h : setDefaultsServices l = Except.ok l') :
    ∀ s ∈ l', ∃ x ∈ l, setDefaultsService x = Except.ok s := by
  induction l generalizing l' with
  | nil =>
    unfold setDefaultsServices at h
    injection h with h
    subst h
    intro s hs
    exact absurd hs (by simp)
  | cons x xs ih =>
    unfold setDefaultsServices at h
    cases hx : setDefaultsService x with
    | error e => rw [hx] at h; simp [Bind.bind, Except.bind] at h
    | ok s' =>
      rw [hx] at h
      cases hr : setDefaultsServices xs with
      | error e => rw [hr] at h; simp [Bind.bind, Except.bind] at h
      | ok rest' =>
        rw [hr] at h
        simp only [Bind.bind, Except.bind, pure, Except.pure] at h
        injection h with h
        subst h
        intro s hs
        rcases List.mem_cons.mp hs with heq | hmem
        · exact ⟨x, List.mem_cons_self x xs, heq ▸ hx⟩
        · obtain ⟨y, hy, hye⟩ := ih rest' hr s hmem
          exact ⟨y, List.mem_cons_of_mem x hy, hye⟩

/-- Claim C7: every nested service of a Dev produced by a successful
Read carries no namespace, no forwards, no reverse forwards, no volumes
and no nested services of its own.  Read is modelled by its defaulting
stage over an arbitrary parsed Dev. -/
theorem setDefaults_services_cleared (d d' : Dev) (h : d.setDefaults = Except.ok d') :
    ∀ s ∈ d'.services, s.fields.namespace_ = "" ∧ s.fields.forward = [] ∧
      s.fields.remoteForward = [] ∧ s.fields.volumes = [] ∧ s.services = [] := by
  unfold Dev.setDefaults at h
  cases hr : setDefaultsServices d.services with
  | error e => rw [hr] at h; simp [Bind.bind, Except.bind] at h
  | ok svcs =>
    rw [hr] at h
    simp only [Bind.bind, Except.bind, pure, Except.pure] at h
    injection h with h
    subst h
    intro s hs
    have hmem : s ∈ svcs := by simpa [Dev.services] using hs
    obtain ⟨x, _, hxe⟩ := setDefaultsServices_mem d.services svcs hr s hmem
    exact setDefaultsService_cleared x s hxe

/-- Witness for setDefaults_services_cleared at a concrete manifest
with one declared service. -/
theorem setDefaults_services_cleared_witness :
    serviceDefaulted.fields.namespace_ = "" ∧ serviceDefaulted.fields.forward = [] ∧
    serviceDefaulted.fields.remoteForward = [] ∧ serviceDefaulted.fields.volumes = [] ∧
    serviceDefaulted.services = [] :=
  setDefaults_services_cleared devWithService devWithServiceDefaulted rfl
    serviceDefaulted (by simp [devWithServiceDefaulted, Dev.services])

theorem setDefaultsFields_spec (f : DevFields) :
    (setDefaultsFields f).command ≠ [] ∧ (setDefaultsFields f).mountPath ≠ "" ∧
    (f.command = [] → (setDefaultsFields f).command = ["sh"]) ∧
    (f.mountPath = "" → f.workDir = "" →
      (setDefaultsFields f).mountPath = "/okteto" ∧ (setDefaultsFields f).workDir = "/okteto") ∧
    (f.mountPath = "" → f.workDir ≠ "" →
      (setDefaultsFields f).mountPath = f.workDir ∧ (setDefaultsFields f).workDir = f.workDir) := by
  unfold setDefaultsFields
  by_cases h1 : f.command = [] <;>
    by_cases hmp : f.mountPath = "" <;>
      by_cases hwd : f.workDir = "" <;>
        by_cases hip : f.imagePullPolicy = "" <;>
          simp [h1, hmp, hwd, hip]

/-- Claim C9, amended: a Dev accepted by Read always has a non-empty
command and mount path; no declared command defaults to sh, neither
mountpath nor workdir defaults both to /okteto, and only workdir copies
the workdir into the mount path — but a manifest declaring only a
mountpath keeps an empty work directory. -/
theorem setDefaults_defaults_spec (d d' : Dev) (h : d.setDefaults = Except.ok d') :
    d'.fields.command ≠ [] ∧ d'.fields.mountPath ≠ "" ∧
    (d.fields.command = [] → d'.fields.command = ["sh"]) ∧
    (d.fields.mountPath = "" → d.fields.workDir = "" →
      d'.fields.mountPath = "/okteto" ∧ d'.fields.workDir = "/okteto") ∧
    (d.fields.mountPath = "" → d.fields.workDir ≠ "" →
      d'.fields.mountPath = d.fields.workDir ∧ d'.fields.workDir = d.fields.workDir) := by
  unfold Dev.setDefaults at h
  cases hr : setDefaultsServices d.services with
  | error e => rw [hr] at h; simp [Bind.bind, Except.bind] at h
  | ok svcs =>
    rw [hr] at h
    simp only [Bind.bind, Except.bind, pure, Except.pure] at h
    injection h with h
    subst h
    simpa [Dev.fields] using setDefaultsFields_spec d.fields

/-- Counterexample to claim C9 as stated: the manifest declaring only a
mount path is accepted by Read, and the returned Dev has an empty work
directory. -/
theorem setDefaults_workdir_empty_cex :
    devMountOnly.setDefaults = Except.ok devMountOnlyDefaulted ∧
    devMountOnlyDefaulted.fields.workDir = "" :=
  ⟨rfl, rfl⟩

/-- Witness for setDefaults_defaults_spec at a concrete manifest. -/
theorem setDefaults_defaults_spec_witness :
    devApiDefaulted.fields.command ≠ [] ∧ devApiDefaulted.fields.mountPath ≠ "" :=
  ⟨(setDefaults_defaults_spec devApi devApiDefaulted rfl).1,
   (setDefaults_defaults_spec devApi devApiDefaulted rfl).2.1⟩

end OktetoModel

namespace CndModel

theorem updateFirstCndContainer_length (dev : Dev) (l : List Container) :
    (updateFirstCndContainer dev l).length = l.length := by
  induction l with
  | nil => rfl
  | cons c rest ih =>
    unfold updateFirstCndContainer
    split
    · simp
    · simp [ih]

theorem updateFirstCndContainer_names (dev : Dev) (l : List Container) :
    (updateFirstCndContainer dev l).map (fun c => c.name) = l.map (fun c => c.name) := by
  induction l with
  | nil => rfl
  | cons c rest ih =>
    unfold updateFirstCndContainer
    split
    · simp [updateCndContainer]
    · simp [ih]

theorem countP_name_eq_of_names_eq (p : String → Bool) (l l' : List Container)
    (h : l.map (fun c => c.name) = l'.map (fun c => c.name)) :
    l.countP (fun c => p c.name) = l'.countP (fun c => p c.name) := by
  have h1 : (l.map (fun c => c.name)).countP p = (l'.map (fun c => c.name)).countP p := by
    rw [h]
  simpa [List.countP_map, Function.comp] using h1

/-- Counterexample to claim C2 as stated: translating the translated
deployment again is not the identity on the first translation's
output — a second syncthing sidecar and volume get appended. -/
theorem deploymentTranslate_not_idempotent_cex :
    swapDev0.deploymentTranslate (swapDev0.deploymentTranslate deployment0) ≠
      swapDev0.deploymentTranslate deployment0 := by
  decide

/-- Claim C2, amended: translation is not idempotent — every application
of the translation appends exactly one more cnd-syncthing sidecar
container and one more cnd-sync volume to the deployment, so a second
translation appends the sidecar and its volume a second time instead of
changing nothing. -/
theorem deploymentTranslate_appends (dev : Dev) (d : Deployment) :
    (dev.deploymentTranslate d).containers.length = d.containers.length + 1 ∧
    (dev.deploymentTranslate d).containers.countP (fun c => c.name = "cnd-syncthing") =
      d.containers.countP (fun c => c.name = "cnd-syncthing") + 1 ∧
    ((dev.deploymentTranslate d).volumes.getD []).length = (d.volumes.getD []).length + 1 := by
  refine ⟨?_, ?_, ?_⟩
  · simp [Dev.deploymentTranslate, createSyncthingContainer, createSyncthingVolume,
      updateFirstCndContainer_length]
  · have hnames := updateFirstCndContainer_names dev d.containers
    have hcount := countP_name_eq_of_names_eq (fun n => n = "cnd-syncthing")
      (updateFirstCndContainer dev d.containers) d.containers hnames
    simp [Dev.deploymentTranslate, createSyncthingContainer, createSyncthingVolume,
      List.countP_append, hcount, syncthingContainer, List.countP_cons]
  · simp [Dev.deploymentTranslate, createSyncthingContainer, createSyncthingVolume]

end CndModel

namespace UpCmd

/-- Claim C4: the wait loop returns nil exactly on a nil Running result,
ErrCommandFailed on a non-nil one, ErrLostConnection on Disconnect, and
never returns because of an ErrChan message — after any run of ErrChan
messages it reacts to the next decisive event, and on ErrChan messages
alone it keeps waiting. -/
theorem WaitUntilExitOrInterrupt_spec (pre rest : List UpEvent) (msg : String)
    (h : ∀ x ∈ pre, x.isErrMsg = true) :
    WaitUntilExitOrInterrupt (pre ++ UpEvent.running none :: rest) = some none ∧
    WaitUntilExitOrInterrupt (pre ++ UpEvent.running (some msg) :: rest) =
      some (some UpError.commandFailed) ∧
    WaitUntilExitOrInterrupt (pre ++ UpEvent.disconnect :: rest) =
      some (some UpError.lostConnection) ∧
    WaitUntilExitOrInterrupt pre = none := by
  induction pre with
  | nil => simp [WaitUntilExitOrInterrupt]
  | cons x xs ih =>
    have hx := h x (List.mem_cons_self x xs)
    cases x with
    | running e => simp [UpEvent.isErrMsg] at hx
    | disconnect => simp [UpEvent.isErrMsg] at hx
    | errMsg m =>
      have ih' := ih (fun y hy => h y (List.mem_cons_of_mem _ hy))
      simpa [WaitUntilExitOrInterrupt] using ih'

/-- Witness for WaitUntilExitOrInterrupt_spec: after one ErrChan message
the loop is still waiting, and a following nil Running result makes it
return nil. -/
theorem WaitUntilExitOrInterrupt_spec_witness :
    WaitUntilExitOrInterrupt [UpEvent.errMsg "sync warning", UpEvent.running none] = some none ∧
    WaitUntilExitOrInterrupt [UpEvent.errMsg "sync warning"] = none :=
  ⟨(WaitUntilExitOrInterrupt_spec [UpEvent.errMsg "sync warning"] [] "boom"
      (by decide)).1,
   (WaitUntilExitOrInterrupt_spec [UpEvent.errMsg "sync warning"] [] "boom"
      (by decide)).2.2.2⟩

/-- Counterexample to claim C5 as stated: with one user forward and
concrete synchroniser ports, the last registered pair is the GUI
forward (Sy.RemoteGUIPort, GUIPort), not the synchroniser remote port
pair (Sy.RemotePort, ClusterPort). -/
theorem devModeForwards_remote_not_last_cex :
    (devModeForwards OktetoModel.devOneForward 40000 40001).getLast? = some (40001, GUIPort) ∧
    (devModeForwards OktetoModel.devOneForward 40000 40001).getLast? ≠
      some (40000, ClusterPort) := by
  constructor
  · rfl
  · decide

/-- Claim C5, amended: the up command registers every user-declared
forward before the synchroniser ports; the synchroniser's remote port
is registered immediately after the user forwards, and the
synchroniser's GUI port — not the remote port — is the last port
registered. -/
theorem devModeForwards_order (dev : OktetoModel.Dev) (rp gp : Int) :
    (devModeForwards dev rp gp).length = dev.fields.forward.length + 2 ∧
    (∀ i, i < dev.fields.forward.length →
      (devModeForwards dev rp gp)[i]? =
        (dev.fields.forward[i]?).map (fun f => (f.local_, f.remote))) ∧
    (devModeForwards dev rp gp)[dev.fields.forward.length]? = some (rp, ClusterPort) ∧
    (devModeForwards dev rp gp).getLast? = some (gp, GUIPort) := by
  refine ⟨?_, ?_, ?_, ?_⟩
  · simp [devModeForwards]
  · intro i hi
    simp [devModeForwards, List.getElem?_append, hi]
  · rw [devModeForwards, List.getElem?_append_right (by simp)]
    simp
  · simp [devModeForwards, List.getLast?_append]

/-- Witness for devModeForwards_order at a concrete Dev and ports: the
user forward sits at position 0 and the synchroniser remote port right
after it. -/
theorem devModeForwards_order_witness :
    (devModeForwards OktetoModel.devOneForward 40000 40001)[0]? = some (8080, 3000) ∧
    (devModeForwards OktetoModel.devOneForward 40000 40001)[1]? = some (40000, ClusterPort) :=
  ⟨((devModeForwards_order OktetoModel.devOneForward 40000 40001).2.1 0 (by decide)).trans
      (by rfl),
   (devModeForwards_order OktetoModel.devOneForward 40000 40001).2.2.1⟩

end UpCmd

namespace UpCmd

theorem pairwise_replicate_self {α : Type} {R : α → α → Prop} (n : Nat) (x : α)
    (hx : R x x) : (List.replicate n x).Pairwise R := by
  induction n with
  | zero => exact List.Pairwise.nil
  | succ n ih =>
    rw [List.replicate_succ]
    exact List.Pairwise.cons (fun y hy => (List.eq_of_mem_replicate hy) ▸ hx) ih

theorem reporterWrites_decomposition (p : Nat) :
    reporterEarlyWrites p ++ [reporterLastWrite p] =
      UpState.attaching :: List.replicate p UpState.pulling := by
  cases p with
  | zero => rfl
  | succ n => simp [reporterEarlyWrites, reporterLastWrite, List.replicate_succ']

theorem observedWrites_spawned (p delay steps : Nat) (fails : Bool) :
    observedWrites p delay steps fails true =
      [UpState.activating, UpState.starting] ++ reporterEarlyWrites p ++
        insertAt delay (reporterLastWrite p) (mainTailWrites steps fails) := rfl

theorem observedWrites_not_spawned (p delay steps : Nat) (fails : Bool) :
    observedWrites p delay steps fails false =
      ([UpState.activating, UpState.starting].take steps) ++
        (if fails then [UpState.failed] else []) := rfl

theorem insertAt_zero {α : Type} (a : α) (l : List α) : insertAt 0 a l = a :: l := by
  cases l <;> rfl

theorem insertAt_perm {α : Type} (n : Nat) (a : α) (l : List α) :
    (insertAt n a l).Perm (a :: l) := by
  induction l generalizing n with
  | nil =>
    simp only [insertAt]
    exact List.Perm.refl _
  | cons x xs ih =>
    cases n with
    | zero => exact List.Perm.refl _
    | succ n => exact List.Perm.trans (List.Perm.cons x (ih n)) (List.Perm.swap a x xs)

theorem mem_mainTailWrites {steps : Nat} {fails : Bool} {b : UpState}
    (h : b ∈ mainTailWrites steps fails) :
    b = UpState.startingSync ∨ b = UpState.synchronizing ∨ b = UpState.ready ∨
      b = UpState.failed := by
  unfold mainTailWrites at h
  rcases List.mem_append.mp h with h' | h'
  · have hm := (List.take_sublist _ _).subset h'
    simp only [List.mem_cons, List.not_mem_nil, or_false] at hm
    tauto
  · cases fails
    · simp at h'
    · simp at h'
      tauto

theorem pairwise_mainTailWrites (steps : Nat) (fails : Bool) :
    (mainTailWrites steps fails).Pairwise
      (fun a b => b = UpState.failed ∨ stateOrder a ≤ stateOrder b) := by
  unfold mainTailWrites
  rcases steps with _ | _ | _ | n
  · cases fails <;> decide
  · cases fails <;> decide
  · cases fails <;> decide
  · rw [List.take_of_length_le (by exact Nat.le_add_left 3 n)]
    cases fails <;> decide

theorem mem_reporterEarlyWrites {p : Nat} {b : UpState} (h : b ∈ reporterEarlyWrites p) :
    b = UpState.attaching ∨ b = UpState.pulling := by
  cases p with
  | zero => simp [reporterEarlyWrites] at h
  | succ n =>
    simp only [reporterEarlyWrites, List.mem_cons] at h
    rcases h with rfl | h
    · exact Or.inl rfl
    · exact Or.inr (List.eq_of_mem_replicate h)

theorem pairwise_reporterEarlyWrites (p : Nat) :
    (reporterEarlyWrites p).Pairwise (fun a b => stateOrder a ≤ stateOrder b) := by
  cases p with
  | zero => exact List.Pairwise.nil
  | succ n =>
    refine List.Pairwise.cons ?_ (pairwise_replicate_self n UpState.pulling (Nat.le_refl _))
    intro y hy
    rw [List.eq_of_mem_replicate hy]
    decide

theorem stateOrder_le_three_of_mem_front {p : Nat} {a : UpState}
    (h : a ∈ [UpState.activating, UpState.starting] ++ reporterEarlyWrites p) :
    stateOrder a ≤ 3 := by
  rcases List.mem_append.mp h with h' | h'
  · simp only [List.mem_cons, List.not_mem_nil, or_false] at h'
    rcases h' with rfl | rfl <;> decide
  · rcases mem_reporterEarlyWrites h' with rfl | rfl <;> decide

theorem front_le_reporterLastWrite {p : Nat} {a : UpState}
    (h : a ∈ [UpState.activating, UpState.starting] ++ reporterEarlyWrites p) :
    stateOrder a ≤ stateOrder (reporterLastWrite p) := by
  cases p with
  | zero =>
    rcases List.mem_append.mp h with h' | h'
    · simp only [List.mem_cons, List.not_mem_nil, or_false] at h'
      rcases h' with rfl | rfl <;> decide
    · simp [reporterEarlyWrites] at h'
  | succ n =>
    have h3 := stateOrder_le_three_of_mem_front h
    have h4 : stateOrder (reporterLastWrite (n + 1)) = 3 := rfl
    omega

theorem pairwise_serializedWrites (p steps : Nat) (fails : Bool) :
    ([UpState.activating, UpState.starting] ++ reporterEarlyWrites p ++
        (reporterLastWrite p :: mainTailWrites steps fails)).Pairwise
      (fun a b => b = UpState.failed ∨ stateOrder a ≤ stateOrder b) := by
  refine List.pairwise_append.mpr ⟨?_, ?_, ?_⟩
  · refine List.pairwise_append.mpr ⟨?_, ?_, ?_⟩
    · decide
    · exact (pairwise_reporterEarlyWrites p).imp (fun h => Or.inr h)
    · intro a ha b hb
      simp only [List.mem_cons, List.not_mem_nil, or_false] at ha
      rcases mem_reporterEarlyWrites hb with rfl | rfl <;> rcases ha with rfl | rfl <;>
        exact Or.inr (by decide)
  · refine List.Pairwise.cons ?_ (pairwise_mainTailWrites steps fails)
    intro y hy
    have hlast : stateOrder (reporterLastWrite p) ≤ 3 := by
      cases p
      · decide
      · exact Nat.le_refl 3
    rcases mem_mainTailWrites hy with rfl | rfl | rfl | rfl
    · exact Or.inr (le_trans hlast (by decide))
    · exact Or.inr (le_trans hlast (by decide))
    · exact Or.inr (le_trans hlast (by decide))
    · exact Or.inl rfl
  · intro a ha b hb
    rcases List.mem_cons.mp hb with rfl | hb'
    · exact Or.inr (front_le_reporterLastWrite ha)
    · rcases mem_mainTailWrites hb' with rfl | rfl | rfl | rfl
      · exact Or.inr (le_trans (stateOrder_le_three_of_mem_front ha) (by decide))
      · exact Or.inr (le_trans (stateOrder_le_three_of_mem_front ha) (by decide))
      · exact Or.inr (le_trans (stateOrder_le_three_of_mem_front ha) (by decide))
      · exact Or.inl rfl

/-- Counterexample to claim C3 as stated: nothing joins the reporter
goroutine, so with no Pulling message its attaching write may land
after the startingSync write — a write sequence the cycle can produce
that regresses from startingSync back to attaching. -/
theorem stateFile_writes_regression_cex :
    observedWrites 0 1 3 false true =
      [UpState.activating, UpState.starting, UpState.startingSync, UpState.attaching,
        UpState.synchronizing, UpState.ready] ∧
    ¬ (observedWrites 0 1 3 false true).Pairwise
        (fun a b => b = UpState.failed ∨ stateOrder a ≤ stateOrder b) := by
  refine ⟨rfl, ?_⟩
  decide

/-- Claim C3, amended: within one cycle every state-file write respects
the order activating ≤ starting ≤ attaching ≤ pulling ≤ startingSync ≤
synchronizing ≤ ready (failed may replace any) except for the reporter
goroutine's unsynchronised final attaching/pulling write: when that
write lands at its channel-rendezvous point the whole sequence is
monotone, every observable sequence is a permutation of that monotone
sequence differing only in where the final reporter write lands, and
the sequence with that single write removed is always monotone. -/
theorem stateFile_writes_monotone_amended (pullMsgs lastDelay steps : Nat)
    (fails spawned : Bool) :
    (observedWrites pullMsgs 0 steps fails spawned).Pairwise
      (fun a b => b = UpState.failed ∨ stateOrder a ≤ stateOrder b) ∧
    (observedWrites pullMsgs lastDelay steps fails spawned).Perm
      (observedWrites pullMsgs 0 steps fails spawned) ∧
    (([UpState.activating, UpState.starting] ++ reporterEarlyWrites pullMsgs ++
        mainTailWrites steps fails).Pairwise
      (fun a b => b = UpState.failed ∨ stateOrder a ≤ stateOrder b)) := by
  refine ⟨?_, ?_, ?_⟩
  · cases spawned with
    | false =>
      rw [observedWrites_not_spawned]
      rcases steps with _ | _ | n
      · cases fails <;> decide
      · cases fails <;> decide
      · rw [List.take_of_length_le (by exact Nat.le_add_left 2 n)]
        cases fails <;> decide
    | true =>
      rw [observedWrites_spawned, insertAt_zero]
      exact pairwise_serializedWrites pullMsgs steps fails
  · cases spawned with
    | false => exact List.Perm.refl _
    | true =>
      rw [observedWrites_spawned, observedWrites_spawned, insertAt_zero]
      exact List.Perm.append_left _ (insertAt_perm lastDelay _ _)
  · exact (pairwise_serializedWrites pullMsgs steps fails).sublist
      (List.Sublist.append_left (List.Sublist.cons _ (List.Sublist.refl _)) _)

end UpCmd
